import Mathlib

/-!
# The all-stop scheduling service

A shallow embedding of `scheduling_service/src/all_stop_scheduling_service.cpp`:
the start-up sequence (`initialize`, `config_vehicle_list`, `config_scheduler`,
`configure_csv_logger`), the ingestion loop (`consume_msg`) and the scheduling
loop (`schedule_veh`).

Calls that leave the source file (Kafka workers, the vehicle list, the scheduling
worker, the clock, the configuration) are modelled as operations on an explicit
world state, and every such call is written to a chronological call log, so
that statements about "what is called, with what, in which order" are
statements about that log.
-/

namespace scheduling_service

/-! ## Ingestion: `consume_msg` -/

/-- The inbound transport `kafka_clients::kafka_consumer_worker` as `consume_msg`
uses it. The class is defined outside the source file, so its three methods are
operations on a world state `σ` (the broker, the worker's run flag, whatever
other threads do to them). -/
structure kafka_consumer_worker (σ : Type) where
  /-- The answer of `is_running()` and the world afterwards. -/
  is_running : σ → Bool × σ
  /-- The payload `consume(timeout_ms)` returns (empty on a poll timeout). -/
  consume : Nat → σ → String × σ
  /-- The effect of `stop()`. -/
  stop : σ → σ

/-- One call made by `consume_msg`, with its argument or answer. -/
inductive consumer_call where
  | is_running (answer : Bool)
  | consume (timeout_ms : Nat) (payload : String)
  | process_update (payload : String)
  | stop
deriving DecidableEq

/-- What is known of a run of `consume_msg` after a bounded number of loop
tests: the world, the calls made so far in order, and whether the function has
returned. -/
structure consume_msg_run (σ : Type) where
  world : σ
  calls : List consumer_call
  returned : Bool

/-- The body of `consume_msg` (lines 124-140). `fuel` bounds the number of
evaluations of the loop condition; `vehicle_list_present` is the truth value of
the shared pointer `_vehicle_list_ptr`.

```
while (_consumer_worker->is_running()) {
    const std::string payload = _consumer_worker->consume(1000);
    if (payload.length() != 0 && _vehicle_list_ptr)
        _vehicle_list_ptr->process_update(payload);
}
_consumer_worker->stop();
```
-/
def consume_msg {σ : Type} (_consumer_worker : kafka_consumer_worker σ)
    (vehicle_list_present : Bool) : Nat → σ → consume_msg_run σ
  | 0, w => { world := w, calls := [], returned := false }
  | fuel + 1, w =>
    let running := _consumer_worker.is_running w
    if running.1 then
      let polled := _consumer_worker.consume 1000 running.2
      let payload := polled.1
      let forwarded :=
        if payload.length != 0 && vehicle_list_present then
          [consumer_call.process_update payload]
        else []
      let rest := consume_msg _consumer_worker vehicle_list_present fuel polled.2
      { world := rest.world
        calls := consumer_call.is_running true :: consumer_call.consume 1000 payload ::
          (forwarded ++ rest.calls)
        returned := rest.returned }
    else
      { world := _consumer_worker.stop running.2
        calls := [consumer_call.is_running false, consumer_call.stop]
        returned := true }

/-- The payloads returned by `consume`, in call order. -/
def consumed : List consumer_call → List String
  | [] => []
  | consumer_call.consume _ p :: cs => p :: consumed cs
  | _ :: cs => consumed cs

/-- The payloads handed to `process_update`, in call order. -/
def forwarded : List consumer_call → List String
  | [] => []
  | consumer_call.process_update p :: cs => p :: forwarded cs
  | _ :: cs => forwarded cs

/-- A transport for examples: a queue of payloads still to be delivered (the
empty string stands for a poll that timed out) and the run flag. It reports
itself running until the queue is exhausted or it has been stopped. -/
structure scripted_consumer_state where
  pending : List String
  stopped : Bool
deriving DecidableEq

/-- The scripted transport. -/
def scripted_consumer : kafka_consumer_worker scripted_consumer_state where
  is_running w := (!w.pending.isEmpty && !w.stopped, w)
  consume _ w := (w.pending.headD "", { w with pending := w.pending.tail })
  stop w := { w with stopped := true }

/-! ## Start-up: configuration, `config_vehicle_list`, `config_scheduler`, `initialize` -/

/-- A C++ `double`, by its IEEE-754 bit pattern. The start-up code only copies
doubles from the configuration into setters; it computes nothing with them. -/
structure cpp_double where
  bits : Nat
deriving DecidableEq

/-- The exception `streets_service::streets_configuration_exception`, thrown by
a configuration lookup whose value is missing or malformed. -/
structure streets_configuration_exception where
  what : String
deriving DecidableEq

/-- The four static lookups of `streets_service::streets_configuration` used by
the service (the class is defined outside the source file): each returns the configured
value or throws. `get_int_config` returns a C++ `int`. -/
structure streets_configuration where
  get_string_config : String → Except streets_configuration_exception String
  get_boolean_config : String → Except streets_configuration_exception Bool
  get_double_config : String → Except streets_configuration_exception cpp_double
  get_int_config : String → Except streets_configuration_exception Int

/-- Modelled from the spec: the Intersection Model (the type returned by
`intersection_client::get_intersection_info` is defined outside the source file), "static
geometry and conflict data: set of lanes/approaches, per-lane conflict
relationships". The service only stores it and hands it to the scheduler. -/
structure intersection_info where
  lanes : List Nat
  conflicts : List (Nat × Nat)
deriving DecidableEq

/-- The class `streets_vehicles::all_stop_status_intent_processor` (defined
outside the source file) as far as `config_vehicle_list` touches it: the value last given to
each of its three setters, `none` while a setter has not been called and the
class default is in force. -/
structure all_stop_status_intent_processor where
  stopping_distance : Option cpp_double := none
  stopping_speed : Option cpp_double := none
  timeout : Option Int := none
deriving DecidableEq

/-- The setter `set_stopping_distance`. -/
def all_stop_status_intent_processor.set_stopping_distance
    (p : all_stop_status_intent_processor) (d : cpp_double) : all_stop_status_intent_processor :=
  { p with stopping_distance := some d }

/-- The setter `set_stopping_speed`. -/
def all_stop_status_intent_processor.set_stopping_speed
    (p : all_stop_status_intent_processor) (v : cpp_double) : all_stop_status_intent_processor :=
  { p with stopping_speed := some v }

/-- The setter `set_timeout`. -/
def all_stop_status_intent_processor.set_timeout
    (p : all_stop_status_intent_processor) (t : Int) : all_stop_status_intent_processor :=
  { p with timeout := some t }

/-- The processors a vehicle list can hold; the service installs the all-stop
one. -/
inductive status_intent_processor where
  | all_stop (p : all_stop_status_intent_processor)
deriving DecidableEq

/-- The class `streets_vehicles::vehicle_list` as far as start-up touches it:
its processor (null after default construction). -/
structure vehicle_list where
  processor : Option status_intent_processor := none
deriving DecidableEq

/-- The method `vehicle_list::set_processor`. -/
def vehicle_list.set_processor (l : vehicle_list) (p : status_intent_processor) : vehicle_list :=
  { l with processor := some p }

/-- The class `streets_vehicle_scheduler::all_stop_vehicle_scheduler` (defined
outside the source file) as far as `config_scheduler` touches it: the value last given to
each of its two setters, `none` while a setter has not been called. -/
structure all_stop_vehicle_scheduler where
  intersection_info : Option intersection_info := none
  flexibility_limit : Option Int := none
deriving DecidableEq

/-- The setter `set_intersection_info`. -/
def all_stop_vehicle_scheduler.set_intersection_info
    (s : all_stop_vehicle_scheduler) (info : scheduling_service.intersection_info) :
    all_stop_vehicle_scheduler :=
  { s with intersection_info := some info }

/-- The setter `set_flexibility_limit`. -/
def all_stop_vehicle_scheduler.set_flexibility_limit
    (s : all_stop_vehicle_scheduler) (limit : Int) : all_stop_vehicle_scheduler :=
  { s with flexibility_limit := some limit }

/-- The class `all_stop_scheduling_worker`: it has no state the service reads. -/
structure all_stop_scheduling_worker where
deriving DecidableEq

/-- What `create_consumer(bootstrap_server, consumer_topic, group_id)` was given,
and whether `subscribe()` has been called on the result. -/
structure created_consumer where
  bootstrap_server : String
  topic : String
  group_id : String
  subscribed : Bool
deriving DecidableEq

/-- What `create_producer(bootstrap_server, producer_topic)` was given. -/
structure created_producer where
  bootstrap_server : String
  topic : String
deriving DecidableEq

/-- The members of `all_stop_scheduling_service`, shared pointers as options
(`none` is the null pointer), after default construction. `csv_logger` is not a
member: it is the file name of the process-wide spdlog logger "csv_logger"
once `configure_csv_logger` has registered it. -/
structure all_stop_scheduling_service where
  bootstrap_server : String := ""
  group_id : String := ""
  consumer_topic : String := ""
  producer_topic : String := ""
  consumer_worker : Option created_consumer := none
  producer_worker : Option created_producer := none
  intersection_info_ptr : Option intersection_info := none
  vehicle_list_ptr : Option vehicle_list := none
  scheduler_ptr : Option all_stop_vehicle_scheduler := none
  scheduling_worker : Option all_stop_scheduling_worker := none
  csv_logger : Option String := none
deriving DecidableEq

/-- The answers of the outside world during start-up. -/
structure startup_env where
  /-- The answer of `consumer_worker->init()`. -/
  consumer_init : Bool
  /-- The answer of `consumer_worker->is_running()`, asked after `subscribe()`. -/
  consumer_is_running : Bool
  /-- The answer of `producer_worker->init()`. -/
  producer_init : Bool
  /-- The call `int_client->update_intersection_info(sleep_millisecs, attempts)`
  followed by `get_intersection_info()`. The intersection client is defined
  outside the source file; as in the spec, the fetch yields the Intersection Model (the update
  returns true) or fails after its retries (`none`: the update returns false). -/
  update_intersection_info : Int → Int → Option intersection_info
  /-- Whether `spdlog::daily_logger_mt` creates the logger for the given file name
  (false: it throws `spdlog_ex`). -/
  daily_logger_mt : String → Bool

/-- The C constant `EXIT_FAILURE`. -/
def EXIT_FAILURE : Int := 1

/-- How a member function ends: it returns a value, an exception leaves it, or
it ends the process with `exit(status)`; in each case with the state of the
service at that point. -/
inductive outcome (α : Type) where
  | returned (value : α) (svc : all_stop_scheduling_service)
  | raised (ex : streets_configuration_exception) (svc : all_stop_scheduling_service)
  | exited (status : Int) (svc : all_stop_scheduling_service)
deriving DecidableEq

/-- The method `config_vehicle_list` (lines 87-104). The processor is installed
in the list first and then configured through the pointer, so an exception
from a lookup leaves the setters called so far in effect. -/
def config_vehicle_list (cfg : streets_configuration) (svc : all_stop_scheduling_service) :
    outcome Bool :=
  match svc.vehicle_list_ptr with
  | some vl =>
    let processor : all_stop_status_intent_processor := {}
    let installed (p : all_stop_status_intent_processor) : all_stop_scheduling_service :=
      { svc with vehicle_list_ptr := some (vl.set_processor (status_intent_processor.all_stop p)) }
    match cfg.get_double_config "stop_distance" with
    | Except.error ex => outcome.raised ex (installed processor)
    | Except.ok stop_distance =>
      let processor := processor.set_stopping_distance stop_distance
      match cfg.get_double_config "stop_speed" with
      | Except.error ex => outcome.raised ex (installed processor)
      | Except.ok stop_speed =>
        let processor := processor.set_stopping_speed stop_speed
        match cfg.get_int_config "exp_delta" with
        | Except.error ex => outcome.raised ex (installed processor)
        | Except.ok exp_delta =>
          let processor := processor.set_timeout exp_delta
          outcome.returned true (installed processor)
  | none => outcome.returned false svc

/-- The method `config_scheduler` (lines 107-121). -/
def config_scheduler (cfg : streets_configuration) (svc : all_stop_scheduling_service) :
    outcome Bool :=
  match svc.scheduler_ptr, svc.intersection_info_ptr with
  | some scheduler, some info =>
    let scheduler := scheduler.set_intersection_info info
    match cfg.get_int_config "flexibility_limit" with
    | Except.error ex => outcome.raised ex { svc with scheduler_ptr := some scheduler }
    | Except.ok flexibility_limit =>
      outcome.returned true
        { svc with scheduler_ptr := some (scheduler.set_flexibility_limit flexibility_limit) }
  | _, _ => outcome.returned false svc

/-- The method `configure_csv_logger` (lines 189-207). It catches `spdlog_ex`
only, so a configuration exception from one of its two lookups leaves it. (C++
does not fix which operand of `+` is evaluated first; the path is looked up
first here.) -/
def configure_csv_logger (cfg : streets_configuration) (env : startup_env)
    (svc : all_stop_scheduling_service) : outcome Unit :=
  match cfg.get_string_config "schedule_log_path" with
  | Except.error ex => outcome.raised ex svc
  | Except.ok path =>
    match cfg.get_string_config "schedule_log_filename" with
    | Except.error ex => outcome.raised ex svc
    | Except.ok filename =>
      if env.daily_logger_mt (path ++ filename ++ ".csv") then
        outcome.returned () { svc with csv_logger := some (path ++ filename ++ ".csv") }
      else outcome.returned () svc

/-- The `try` block of `initialize` (lines 9-69). -/
def initialize_try_block (cfg : streets_configuration) (env : startup_env)
    (sleep_millisecs int_client_request_attempts : Int) (svc : all_stop_scheduling_service) :
    outcome Bool :=
  match cfg.get_string_config "bootstrap_server" with
  | Except.error ex => outcome.raised ex svc
  | Except.ok bootstrap_server =>
  let svc := { svc with bootstrap_server := bootstrap_server }
  match cfg.get_string_config "group_id" with
  | Except.error ex => outcome.raised ex svc
  | Except.ok group_id =>
  let svc := { svc with group_id := group_id }
  match cfg.get_string_config "consumer_topic" with
  | Except.error ex => outcome.raised ex svc
  | Except.ok consumer_topic =>
  let svc := { svc with consumer_topic := consumer_topic }
  match cfg.get_string_config "producer_topic" with
  | Except.error ex => outcome.raised ex svc
  | Except.ok producer_topic =>
  let svc := { svc with producer_topic := producer_topic }
  let svc := { svc with
    consumer_worker := some
      { bootstrap_server := svc.bootstrap_server, topic := svc.consumer_topic,
        group_id := svc.group_id, subscribed := false } }
  let svc := { svc with
    producer_worker := some
      { bootstrap_server := svc.bootstrap_server, topic := svc.producer_topic } }
  if !env.consumer_init then outcome.exited EXIT_FAILURE svc
  else
  let svc := { svc with
    consumer_worker := svc.consumer_worker.map (fun c => { c with subscribed := true }) }
  if !env.consumer_is_running then outcome.exited EXIT_FAILURE svc
  else
  match cfg.get_boolean_config "enable_schedule_logging" with
  | Except.error ex => outcome.raised ex svc
  | Except.ok enable_schedule_logging =>
  match (if enable_schedule_logging then configure_csv_logger cfg env svc
    else outcome.returned () svc) with
  | outcome.raised ex svc => outcome.raised ex svc
  | outcome.exited status svc => outcome.exited status svc
  | outcome.returned _ svc =>
  if !env.producer_init then outcome.exited EXIT_FAILURE svc
  else
  match env.update_intersection_info sleep_millisecs int_client_request_attempts with
  | none => outcome.returned false svc
  | some info =>
  let svc := { svc with intersection_info_ptr := some info }
  let svc := { svc with vehicle_list_ptr := some {} }
  match config_vehicle_list cfg svc with
  | outcome.raised ex svc => outcome.raised ex svc
  | outcome.exited status svc => outcome.exited status svc
  | outcome.returned _ svc =>
  let svc := { svc with scheduler_ptr := some {} }
  match config_scheduler cfg svc with
  | outcome.raised ex svc => outcome.raised ex svc
  | outcome.exited status svc => outcome.exited status svc
  | outcome.returned _ svc =>
  let svc := { svc with scheduling_worker := some {} }
  outcome.returned true svc

/-- The method `initialize` (lines 5-75): the `try` block, and the handler that
turns a `streets_configuration_exception` into the return value false. -/
def all_stop_scheduling_service.initialize (cfg : streets_configuration) (env : startup_env)
    (sleep_millisecs int_client_request_attempts : Int) (svc : all_stop_scheduling_service) :
    outcome Bool :=
  match initialize_try_block cfg env sleep_millisecs int_client_request_attempts svc with
  | outcome.raised _ svc => outcome.returned false svc
  | result => result


/-! ## Scheduling: `schedule_veh` -/

/-- Modelled from the spec: a tracked vehicle (the class `streets_vehicles::vehicle`
is defined outside the source file), "identifier, current lane/approach identifier,
position (distance to stop line), speed, intent/status tag, last-update
timestamp". The scheduling loop only copies vehicles. -/
structure vehicle where
  id : String
  lane_id : Int
  distance : cpp_double
  speed : cpp_double
  status : String
  timestamp : Nat
deriving DecidableEq

/-- The snapshot type `std::unordered_map<std::string, streets_vehicles::vehicle>`. -/
abbrev vehicle_map := List (String × vehicle)

/-- Modelled from the spec: one entry of an intersection schedule, "vehicle
identifier, assigned lane, estimated/assigned stop time, estimated/assigned
departure (enter-intersection) time, assigned sequence rank". -/
structure vehicle_schedule where
  v_id : String
  lane : Int
  stop_time : Nat
  enter_time : Nat
  rank : Nat
deriving DecidableEq

/-- Modelled from the spec: the Intersection Schedule (the class
`streets_vehicle_scheduler::intersection_schedule` is defined outside the source file),
"generation timestamp, ordered sequence of schedule entries". The loop reads
its member `timestamp`, an unsigned 64-bit number of milliseconds. -/
structure intersection_schedule where
  timestamp : Nat
  vehicle_schedules : List vehicle_schedule
deriving DecidableEq

/-- The value a signed 64-bit integer takes for the number `n` (two's
complement): the result of converting an unsigned 64-bit number to `int64_t`,
and of `int64_t` arithmetic as the compiled code performs it. The constants are
2^63 and 2^64. -/
def to_int64 (n : Int) : Int :=
  (n + 9223372036854775808) % 18446744073709551616 - 9223372036854775808

/-- The target wake time of line 162,
`system_clock::now() + std::chrono::milliseconds(scheduling_delta)`, in clock
ticks. The `u_int64_t` interval is converted to the `int64_t` count of a
`milliseconds` duration, that count is scaled to clock ticks, and the result is
added to the clock reading, each step in 64-bit signed arithmetic. -/
def next_schedule_time_epoch (ticks_per_millisecond now scheduling_delta : Nat) : Int :=
  to_int64 ((now : Int) +
    to_int64 (to_int64 (scheduling_delta : Int) * (ticks_per_millisecond : Int)))

/-- What `schedule_veh` calls outside the source file, as operations on a world state
`σ`: the clock, the scheduling worker, the vehicle list and the producer. Time
points of `std::chrono::system_clock` are counted in clock ticks, held in a
signed 64-bit number. The producer and the vehicle list are taken to be
non-null: the function dereferences them without a test. -/
structure scheduling_env (σ : Type) where
  /-- The ticks of `system_clock` in one millisecond, the factor by which
  `time_point + std::chrono::milliseconds(n)` scales `n`. -/
  ticks_per_millisecond : Nat
  /-- The reading of `std::chrono::system_clock::now()`. -/
  now : σ → Nat × σ
  /-- The answer of `_scheduling_worker->start_next_schedule(last, delta)`. -/
  start_next_schedule : Nat → Nat → σ → Bool × σ
  /-- The snapshot `_vehicle_list_ptr->get_vehicles()`. -/
  get_vehicles : σ → vehicle_map × σ
  /-- The schedule `_scheduling_worker->schedule_vehicles(veh_map, _scheduler_ptr)`. -/
  schedule_vehicles :
    vehicle_map → Option all_stop_vehicle_scheduler → σ → intersection_schedule × σ
  /-- The serialisation `int_schedule.toJson()`. -/
  toJson : intersection_schedule → String
  /-- The effect of `_producer_worker->send(msg)`. -/
  send : String → σ → σ
  /-- The effect of `std::this_thread::sleep_until(time_point)`. -/
  sleep_until : Int → σ → σ
  /-- The conversion `u_int64_t(x * 1000)` of the configured `scheduling_delta`
  from seconds to milliseconds; floating-point arithmetic is outside the model. -/
  u_int64_millis : cpp_double → Nat

/-- One call made by `schedule_veh`, with its arguments and its answer. -/
inductive scheduling_call where
  | start_next_schedule (last_schedule_timestamp scheduling_delta : Nat) (permitted : Bool)
  | now (time_point : Nat)
  | get_vehicles (snapshot : vehicle_map)
  | schedule_vehicles (snapshot : vehicle_map) (int_schedule : intersection_schedule)
  | send (msg : String)
  | sleep_until (time_point : Int)
deriving DecidableEq

/-- The local variables of `schedule_veh` (lines 152-155), the world, and the
calls made so far in order. `sch_count` is a C++ `int` that is only logged. -/
structure schedule_veh_state (σ : Type) where
  last_schedule_timestamp : Nat
  sch_count : Nat
  veh_map : vehicle_map
  world : σ
  calls : List scheduling_call

/-- One iteration of the `while (true)` loop of `schedule_veh` (lines 159-182).

```
if (_scheduling_worker->start_next_schedule(last_schedule_timestamp, scheduling_delta)) {
    auto next_schedule_time_epoch = system_clock::now() + milliseconds(scheduling_delta);
    veh_map = _vehicle_list_ptr->get_vehicles();
    intersection_schedule int_schedule = _scheduling_worker->schedule_vehicles(veh_map, _scheduler_ptr);
    std::string msg_to_send = int_schedule.toJson();
    _producer_worker->send(msg_to_send);
    last_schedule_timestamp = int_schedule.timestamp;
    sch_count += 1;
    if (system_clock::now() < next_schedule_time_epoch)
        std::this_thread::sleep_until(next_schedule_time_epoch);
}
```
-/
def schedule_veh_iteration {σ : Type} (env : scheduling_env σ)
    (_scheduler_ptr : Option all_stop_vehicle_scheduler) (scheduling_delta : Nat)
    (st : schedule_veh_state σ) : schedule_veh_state σ :=
  let permission := env.start_next_schedule st.last_schedule_timestamp scheduling_delta st.world
  if permission.1 then
    let started := env.now permission.2
    let next_schedule_time_epoch :=
      next_schedule_time_epoch env.ticks_per_millisecond started.1 scheduling_delta
    let snapshot := env.get_vehicles started.2
    let veh_map := snapshot.1
    let scheduled := env.schedule_vehicles veh_map _scheduler_ptr snapshot.2
    let int_schedule := scheduled.1
    let msg_to_send := env.toJson int_schedule
    let published := env.send msg_to_send scheduled.2
    let finished := env.now published
    { last_schedule_timestamp := int_schedule.timestamp
      sch_count := st.sch_count + 1
      veh_map := veh_map
      world :=
        if (finished.1 : Int) < next_schedule_time_epoch then
          env.sleep_until next_schedule_time_epoch finished.2
        else finished.2
      calls := st.calls ++
        [scheduling_call.start_next_schedule st.last_schedule_timestamp scheduling_delta true,
          scheduling_call.now started.1,
          scheduling_call.get_vehicles veh_map,
          scheduling_call.schedule_vehicles veh_map int_schedule,
          scheduling_call.send msg_to_send,
          scheduling_call.now finished.1] ++
        (if (finished.1 : Int) < next_schedule_time_epoch then
          [scheduling_call.sleep_until next_schedule_time_epoch]
        else []) }
  else
    { st with
      world := permission.2
      calls := st.calls ++
        [scheduling_call.start_next_schedule st.last_schedule_timestamp scheduling_delta
          false] }

/-- The state of `schedule_veh` after a number of iterations of its loop. -/
def schedule_veh_loop {σ : Type} (env : scheduling_env σ)
    (_scheduler_ptr : Option all_stop_vehicle_scheduler) (scheduling_delta : Nat) :
    Nat → schedule_veh_state σ → schedule_veh_state σ
  | 0, st => st
  | n + 1, st =>
    schedule_veh_iteration env _scheduler_ptr scheduling_delta
      (schedule_veh_loop env _scheduler_ptr scheduling_delta n st)

/-- The local variables of `schedule_veh` when its loop is entered. -/
def schedule_veh_entry {σ : Type} (w : σ) : schedule_veh_state σ :=
  { last_schedule_timestamp := 0, sch_count := 0, veh_map := [], world := w, calls := [] }

/-- How far `schedule_veh` has got: it has ended the process, an exception has
left it (it has no handler), or it is in its loop, which has no exit. -/
inductive schedule_veh_progress (σ : Type) where
  | exited (status : Int)
  | raised (ex : streets_configuration_exception)
  | looping (st : schedule_veh_state σ)

/-- The method `schedule_veh` (lines 143-186), followed for a number of
iterations of its loop. The call `_producer_worker->stop()` behind the loop is
never reached. -/
def schedule_veh {σ : Type} (env : scheduling_env σ) (cfg : streets_configuration)
    (_scheduling_worker : Option all_stop_scheduling_worker)
    (_scheduler_ptr : Option all_stop_vehicle_scheduler) (iterations : Nat) (w : σ) :
    schedule_veh_progress σ :=
  match _scheduling_worker with
  | none => schedule_veh_progress.exited EXIT_FAILURE
  | some _ =>
    match cfg.get_double_config "scheduling_delta" with
    | Except.error ex => schedule_veh_progress.raised ex
    | Except.ok seconds =>
      let scheduling_delta := env.u_int64_millis seconds
      schedule_veh_progress.looping
        (schedule_veh_loop env _scheduler_ptr scheduling_delta iterations (schedule_veh_entry w))

/-- The schedules produced by `schedule_vehicles`, in call order. -/
def produced : List scheduling_call → List intersection_schedule
  | [] => []
  | scheduling_call.schedule_vehicles _ s :: cs => s :: produced cs
  | _ :: cs => produced cs

/-- The timestamp of the schedule produced last, 0 when none has been produced. -/
def last_produced_timestamp (calls : List scheduling_call) : Nat :=
  match (produced calls).getLast? with
  | some s => s.timestamp
  | none => 0

/-- The messages sent to the producer, in call order. -/
def published : List scheduling_call → List String
  | [] => []
  | scheduling_call.send msg :: cs => msg :: published cs
  | _ :: cs => published cs

/-- The invariant of the scheduling loop: the marker is the timestamp
of the schedule produced last, and every poll so far was made with the marker
of its time and the one interval. -/
def marker_invariant (delta : Nat) (last : Nat) (calls : List scheduling_call) : Prop :=
  last = last_produced_timestamp calls ∧
    ∀ before after l d g,
      calls = before ++ scheduling_call.start_next_schedule l d g :: after →
      l = last_produced_timestamp before ∧ d = delta

/-- Modelled from the spec: the decision `start_next_schedule` of the class
`all_stop_scheduling_worker`, whose source is not at hand. The spec's
Cadence Controller permits a cycle "when (now − last_schedule_timestamp) ≥
scheduling_interval", all three in milliseconds. -/
def start_next_schedule (now_ms last_schedule_timestamp scheduling_delta : Nat) : Bool :=
  decide ((now_ms : Int) - (last_schedule_timestamp : Int) ≥ (scheduling_delta : Int))

/-- A world for cadence examples. The clock counts nanoseconds. A poll of the
cadence controller, the snapshot, the scheduling computation and the publish
each take a fixed time. -/
structure timed_world where
  clock : Nat
  poll_ns : Nat
  snapshot_ns : Nat
  scheduling_ns : Nat
  publish_ns : Nat
  sent : List String
deriving DecidableEq

/-- The scheduling environment of a timed world. The cadence decision is the
one modelled from the spec, taken on the clock in milliseconds; the schedule is
stamped with the clock, in milliseconds, when `schedule_vehicles` is entered
(the spec's "generation timestamp"); `sleep_until` moves the clock to the time
point unless it has passed. The conversion table knows 0.5 s and 1.0 s. -/
def timed_env : scheduling_env timed_world where
  ticks_per_millisecond := 1000000
  now w := (w.clock, w)
  start_next_schedule last delta w :=
    (start_next_schedule (w.clock / 1000000) last delta, { w with clock := w.clock + w.poll_ns })
  get_vehicles w := ([], { w with clock := w.clock + w.snapshot_ns })
  schedule_vehicles _ _ w :=
    ({ timestamp := w.clock / 1000000, vehicle_schedules := [] },
      { w with clock := w.clock + w.scheduling_ns })
  toJson s := toString s.timestamp
  send msg w := { w with clock := w.clock + w.publish_ns, sent := w.sent ++ [msg] }
  sleep_until t w := { w with clock := max w.clock t.toNat }
  u_int64_millis x :=
    if x.bits = 4602678819172646912 then 500
    else if x.bits = 4607182418800017408 then 1000
    else 0

/-- A timed world in which a cycle takes 700 ms: 100 ms for the snapshot and
600 ms for the scheduling computation. -/
def slow_world : timed_world where
  clock := 10000000000
  poll_ns := 1000000
  snapshot_ns := 100000000
  scheduling_ns := 600000000
  publish_ns := 0
  sent := []

/-- A timed world in which a cycle takes 700 ms: 300 ms for the snapshot and
400 ms for the scheduling computation. -/
def slow_snapshot_world : timed_world where
  clock := 10000000000
  poll_ns := 1000000
  snapshot_ns := 300000000
  scheduling_ns := 400000000
  publish_ns := 0
  sent := []

/-- A timed world in which a cycle takes exactly 500 ms: 1 ms for the snapshot
and 499 ms for the scheduling computation. -/
def exact_world : timed_world where
  clock := 10000000000
  poll_ns := 1000000
  snapshot_ns := 1000000
  scheduling_ns := 499000000
  publish_ns := 0
  sent := []

/-- The four transport options (`bootstrap_server`, `group_id`, `consumer_topic`,
`producer_topic`) can all be read. -/
def transport_options_readable (cfg : streets_configuration) : Bool :=
  (cfg.get_string_config "bootstrap_server").isOk &&
    (cfg.get_string_config "group_id").isOk &&
    (cfg.get_string_config "consumer_topic").isOk &&
    (cfg.get_string_config "producer_topic").isOk

/-- The options the logging step of `initialize` reads can all be read: the flag
`enable_schedule_logging`, and, when it is set, the log path and file name. -/
def logging_readable (cfg : streets_configuration) : Bool :=
  match cfg.get_boolean_config "enable_schedule_logging" with
  | Except.error _ => false
  | Except.ok false => true
  | Except.ok true =>
    (cfg.get_string_config "schedule_log_path").isOk &&
      (cfg.get_string_config "schedule_log_filename").isOk

/-- A configuration for examples, read from tables: a key that is absent from
its table is a missing option, and its lookup throws. -/
structure manifest where
  strings : List (String × String) := []
  booleans : List (String × Bool) := []
  doubles : List (String × cpp_double) := []
  ints : List (String × Int) := []

/-- Look a key up in a table; throw when it is missing. -/
def manifest.find {α : Type} (table : List (String × α)) (key : String) :
    Except streets_configuration_exception α :=
  match table.lookup key with
  | some v => Except.ok v
  | none => Except.error { what := key }

/-- The configuration a manifest stands for. -/
def manifest.configuration (m : manifest) : streets_configuration where
  get_string_config := manifest.find m.strings
  get_boolean_config := manifest.find m.booleans
  get_double_config := manifest.find m.doubles
  get_int_config := manifest.find m.ints

/-- A complete manifest of the service, with schedule logging switched off. -/
def example_manifest : manifest where
  strings := [("bootstrap_server", "127.0.0.1:9092"), ("group_id", "group_one"),
    ("consumer_topic", "v2xhub_in"), ("producer_topic", "v2xhub_scheduling_plan_sub")]
  booleans := [("enable_schedule_logging", false)]
  doubles := [("stop_distance", { bits := 4607182418800017408 }),
    ("stop_speed", { bits := 4591870180066957722 }),
    ("scheduling_delta", { bits := 4607182418800017408 })]
  ints := [("exp_delta", 60000), ("flexibility_limit", 5)]

/-- The example manifest with the flexibility limit configured as -1. -/
def negative_limit_manifest : manifest :=
  { example_manifest with ints := [("exp_delta", 60000), ("flexibility_limit", -1)] }

/-- The example manifest without the option `stop_speed`. -/
def missing_stop_speed_manifest : manifest :=
  { example_manifest with
    doubles := [("stop_distance", { bits := 4607182418800017408 }),
      ("scheduling_delta", { bits := 4607182418800017408 })] }

/-- A start-up in which every outside call succeeds. -/
def example_startup_env : startup_env where
  consumer_init := true
  consumer_is_running := true
  producer_init := true
  update_intersection_info := fun _ _ => some { lanes := [1, 2], conflicts := [(1, 2)] }
  daily_logger_mt := fun _ => true

/-- The service after a successful start-up with the example manifest. -/
def example_started_service : all_stop_scheduling_service where
  bootstrap_server := "127.0.0.1:9092"
  group_id := "group_one"
  consumer_topic := "v2xhub_in"
  producer_topic := "v2xhub_scheduling_plan_sub"
  consumer_worker := some
    { bootstrap_server := "127.0.0.1:9092", topic := "v2xhub_in", group_id := "group_one",
      subscribed := true }
  producer_worker := some
    { bootstrap_server := "127.0.0.1:9092", topic := "v2xhub_scheduling_plan_sub" }
  intersection_info_ptr := some { lanes := [1, 2], conflicts := [(1, 2)] }
  vehicle_list_ptr := some
    { processor := some (status_intent_processor.all_stop
        { stopping_distance := some { bits := 4607182418800017408 }
          stopping_speed := some { bits := 4591870180066957722 }
          timeout := some 60000 }) }
  scheduler_ptr := some
    { intersection_info := some { lanes := [1, 2], conflicts := [(1, 2)] }
      flexibility_limit := some 5 }
  scheduling_worker := some {}

/-! ## Theorems -/

/-! ### `consume_msg` -/

theorem forwarded_append (xs ys : List consumer_call) :
    forwarded (xs ++ ys) = forwarded xs ++ forwarded ys := by
  induction xs with
  | nil => rfl
  | cons x xs ih => cases x <;> simp [forwarded, ih]

theorem consumed_append (xs ys : List consumer_call) :
    consumed (xs ++ ys) = consumed xs ++ consumed ys := by
  induction xs with
  | nil => rfl
  | cons x xs ih => cases x <;> simp [consumed, ih]

/-- C1. With a non-null vehicle list, at every point of every run of
`consume_msg` the payloads handed to `process_update` are exactly the non-empty
payloads returned by `consume`, in the order they were consumed (each non-empty
payload once, an empty one never); and a poll made while the transport is
running is followed by the rest of the loop whatever its payload, empty or not:
an empty payload does not end the loop. -/
theorem consume_msg_forwards_nonempty {σ : Type} (c : kafka_consumer_worker σ)
    (fuel : Nat) (w : σ) :
    forwarded (consume_msg c true fuel w).calls =
        (consumed (consume_msg c true fuel w).calls).filter (fun p => p.length != 0) ∧
      ((c.is_running w).1 = true →
        (consume_msg c true (fuel + 1) w).calls =
            consumer_call.is_running true ::
              consumer_call.consume 1000 (c.consume 1000 (c.is_running w).2).1 ::
              ((if (c.consume 1000 (c.is_running w).2).1.length = 0 then []
                else [consumer_call.process_update (c.consume 1000 (c.is_running w).2).1]) ++
                (consume_msg c true fuel (c.consume 1000 (c.is_running w).2).2).calls) ∧
          (consume_msg c true (fuel + 1) w).returned =
            (consume_msg c true fuel (c.consume 1000 (c.is_running w).2).2).returned) := by
  refine ⟨?_, ?_⟩
  · induction fuel generalizing w with
    | zero => rfl
    | succ k ih =>
      unfold consume_msg
      by_cases hr : (c.is_running w).1 = true
      · by_cases hp : (c.consume 1000 (c.is_running w).2).1.length = 0
        · simp [hr, hp, forwarded, consumed, ih]
        · simp [hr, hp, forwarded, consumed, forwarded_append, consumed_append, ih]
      · simp [hr, forwarded, consumed]
  · intro hr
    by_cases hp : (c.consume 1000 (c.is_running w).2).1.length = 0
    · simp [consume_msg, hr, hp]
    · simp [consume_msg, hr, hp]

/-- C1, on a run: the transport delivers "a", a poll timeout, "b", a poll
timeout, and then stops running; "a" and "b" are forwarded, in that order, and
the loop runs to its end. -/
theorem consume_msg_forwards_nonempty_witness :
    forwarded (consume_msg scripted_consumer true 9
        { pending := ["a", "", "b", ""], stopped := false }).calls = ["a", "b"] ∧
      consumed (consume_msg scripted_consumer true 9
        { pending := ["a", "", "b", ""], stopped := false }).calls = ["a", "", "b", ""] ∧
      (consume_msg scripted_consumer true 9
        { pending := ["a", "", "b", ""], stopped := false }).returned = true := by
  have h := (consume_msg_forwards_nonempty scripted_consumer 9
    { pending := ["a", "", "b", ""], stopped := false }).1
  refine ⟨?_, ?_, ?_⟩
  · rw [h]; decide
  · decide
  · decide

/-- C10, as stated, fails: with the vehicle list present and the option
`stop_speed` missing, `config_vehicle_list` does not return true; the exception
of the lookup leaves it, after the processor has been installed and given its
stopping distance. So "returns true if and only if the vehicle list exists"
does not hold. -/
theorem config_vehicle_list_raises_with_list_present :
    config_vehicle_list missing_stop_speed_manifest.configuration
        { vehicle_list_ptr := some {} } =
      outcome.raised { what := "stop_speed" }
        { vehicle_list_ptr := some
            { processor := some (status_intent_processor.all_stop
                { stopping_distance := some { bits := 4607182418800017408 } }) } } ∧
      ¬ ∀ (cfg : streets_configuration) (svc : all_stop_scheduling_service),
          (∃ svc', config_vehicle_list cfg svc = outcome.returned true svc') ↔
            svc.vehicle_list_ptr.isSome = true := by
  have hrun : config_vehicle_list missing_stop_speed_manifest.configuration
      { vehicle_list_ptr := some {} } =
      outcome.raised { what := "stop_speed" }
        { vehicle_list_ptr := some
            { processor := some (status_intent_processor.all_stop
                { stopping_distance := some { bits := 4607182418800017408 } }) } } := by
    decide
  refine ⟨hrun, fun h => ?_⟩
  obtain ⟨svc', hs⟩ := (h missing_stop_speed_manifest.configuration
    { vehicle_list_ptr := some {} }).2 rfl
  rw [hrun] at hs
  cases hs

/-- C10, amended. `config_vehicle_list` returns true if and only if the vehicle
list exists and the three options `stop_distance`, `stop_speed` and `exp_delta`
can be read; the list's processor is then an all-stop status-intent processor
whose stopping distance is the configured `stop_distance`, whose stopping speed
is the configured `stop_speed` and whose timeout is the configured `exp_delta`,
nothing else of the service being changed. It returns false if and only if the
list does not exist, and then the service is left as it was. When the list
exists and one of the options cannot be read, the exception leaves the
function. -/
theorem config_vehicle_list_outcomes (cfg : streets_configuration)
    (svc : all_stop_scheduling_service) :
    (∀ svc', config_vehicle_list cfg svc = outcome.returned true svc' ↔
        ∃ vl stop_distance stop_speed exp_delta,
          svc.vehicle_list_ptr = some vl ∧
          cfg.get_double_config "stop_distance" = Except.ok stop_distance ∧
          cfg.get_double_config "stop_speed" = Except.ok stop_speed ∧
          cfg.get_int_config "exp_delta" = Except.ok exp_delta ∧
          svc' =
            { svc with
              vehicle_list_ptr := some
                { vl with
                  processor := some (status_intent_processor.all_stop
                    { stopping_distance := some stop_distance
                      stopping_speed := some stop_speed
                      timeout := some exp_delta }) } }) ∧
      (∀ svc', config_vehicle_list cfg svc = outcome.returned false svc' ↔
        svc.vehicle_list_ptr = none ∧ svc' = svc) ∧
      (svc.vehicle_list_ptr.isSome = true →
        ((cfg.get_double_config "stop_distance").isOk &&
          (cfg.get_double_config "stop_speed").isOk &&
          (cfg.get_int_config "exp_delta").isOk) = false →
        ∃ ex svc', config_vehicle_list cfg svc = outcome.raised ex svc') := by
  cases hv : svc.vehicle_list_ptr with
  | none =>
    refine ⟨?_, ?_, ?_⟩
    · intro svc'
      simp [config_vehicle_list, hv]
    · intro svc'
      simp [config_vehicle_list, hv, eq_comm]
    · intro h
      simp at h
  | some vl =>
    cases hd : cfg.get_double_config "stop_distance" with
    | error e =>
      simp [config_vehicle_list, hv, hd]
    | ok d =>
      cases hs : cfg.get_double_config "stop_speed" with
      | error e =>
        simp [config_vehicle_list, hv, hd, hs]
      | ok s =>
        cases ht : cfg.get_int_config "exp_delta" with
        | error e =>
          simp [config_vehicle_list, hv, hd, hs, ht]
        | ok t =>
          simp [config_vehicle_list, hv, hd, hs, ht, vehicle_list.set_processor,
            all_stop_status_intent_processor.set_stopping_distance,
            all_stop_status_intent_processor.set_stopping_speed,
            all_stop_status_intent_processor.set_timeout, Except.isOk, Except.toBool, eq_comm]

/-- C10 amended, on an input: with the example manifest and a service whose
vehicle list has just been created, the function returns true and the processor
holds the three configured values. -/
theorem config_vehicle_list_outcomes_witness :
    config_vehicle_list example_manifest.configuration { vehicle_list_ptr := some {} } =
      outcome.returned true
        { vehicle_list_ptr := some
            { processor := some (status_intent_processor.all_stop
                { stopping_distance := some { bits := 4607182418800017408 }
                  stopping_speed := some { bits := 4591870180066957722 }
                  timeout := some 60000 }) } } :=
  ((config_vehicle_list_outcomes example_manifest.configuration
    { vehicle_list_ptr := some {} }).1 _).2
    ⟨{}, { bits := 4607182418800017408 }, { bits := 4591870180066957722 }, 60000,
      rfl, rfl, rfl, rfl, rfl⟩

/-- C9, as stated, fails: with `flexibility_limit` configured as -1,
`config_scheduler` installs -1 in the scheduler. -/
theorem config_scheduler_installs_negative_limit :
    config_scheduler
        negative_limit_manifest.configuration
        { scheduler_ptr := some {}
          intersection_info_ptr := some { lanes := [1, 2], conflicts := [(1, 2)] } } =
      outcome.returned true
        { scheduler_ptr := some
            { intersection_info := some { lanes := [1, 2], conflicts := [(1, 2)] }
              flexibility_limit := some (-1) }
          intersection_info_ptr := some { lanes := [1, 2], conflicts := [(1, 2)] } } ∧
      ¬ ∀ (cfg : streets_configuration) (svc svc' : all_stop_scheduling_service)
          (scheduler : all_stop_vehicle_scheduler) (limit : Int),
          config_scheduler cfg svc = outcome.returned true svc' →
          svc'.scheduler_ptr = some scheduler → scheduler.flexibility_limit = some limit →
          0 ≤ limit := by
  have hrun : config_scheduler negative_limit_manifest.configuration
      { scheduler_ptr := some {}
        intersection_info_ptr := some { lanes := [1, 2], conflicts := [(1, 2)] } } =
      outcome.returned true
        { scheduler_ptr := some
            { intersection_info := some { lanes := [1, 2], conflicts := [(1, 2)] }
              flexibility_limit := some (-1) }
          intersection_info_ptr := some { lanes := [1, 2], conflicts := [(1, 2)] } } := by
    decide
  exact ⟨hrun, fun h => absurd (h _ _ _ _ (-1) hrun rfl rfl) (by decide)⟩

/-- C9, amended. When the scheduler and the intersection info exist and
`flexibility_limit` is configured, `config_scheduler` returns true and installs
the configured value unchanged, whatever its sign, together with the
intersection info; so the installed limit is non-negative exactly when the
configured value is. -/
theorem config_scheduler_installs_configured_limit (cfg : streets_configuration)
    (svc : all_stop_scheduling_service) (scheduler : all_stop_vehicle_scheduler)
    (info : intersection_info) (flexibility_limit : Int)
    (hsch : svc.scheduler_ptr = some scheduler)
    (hinfo : svc.intersection_info_ptr = some info)
    (hcfg : cfg.get_int_config "flexibility_limit" = Except.ok flexibility_limit) :
    config_scheduler cfg svc = outcome.returned true
        { svc with
          scheduler_ptr := some
            { intersection_info := some info, flexibility_limit := some flexibility_limit } } ∧
      ∀ svc' scheduler' limit,
        config_scheduler cfg svc = outcome.returned true svc' →
        svc'.scheduler_ptr = some scheduler' → scheduler'.flexibility_limit = some limit →
        limit = flexibility_limit ∧ (0 ≤ limit ↔ 0 ≤ flexibility_limit) := by
  have hres : config_scheduler cfg svc = outcome.returned true
      { svc with
        scheduler_ptr := some
          { intersection_info := some info, flexibility_limit := some flexibility_limit } } := by
    simp [config_scheduler, hsch, hinfo, hcfg,
      all_stop_vehicle_scheduler.set_intersection_info,
      all_stop_vehicle_scheduler.set_flexibility_limit]
  refine ⟨hres, ?_⟩
  intro svc' scheduler' limit h1 h2 h3
  rw [hres] at h1
  injection h1 with _ h1
  subst h1
  simp only [Option.some.injEq] at h2
  subst h2
  simp only [Option.some.injEq] at h3
  subst h3
  exact ⟨rfl, Iff.rfl⟩

/-- C9 amended, on an input: a configured limit of 5 is installed as 5. -/
theorem config_scheduler_installs_configured_limit_witness :
    config_scheduler example_manifest.configuration
        { scheduler_ptr := some {}
          intersection_info_ptr := some { lanes := [1, 2], conflicts := [(1, 2)] } } =
      outcome.returned true
        { scheduler_ptr := some
            { intersection_info := some { lanes := [1, 2], conflicts := [(1, 2)] }
              flexibility_limit := some 5 }
          intersection_info_ptr := some { lanes := [1, 2], conflicts := [(1, 2)] } } :=
  (config_scheduler_installs_configured_limit example_manifest.configuration
    { scheduler_ptr := some {}
      intersection_info_ptr := some { lanes := [1, 2], conflicts := [(1, 2)] } }
    {} { lanes := [1, 2], conflicts := [(1, 2)] } 5 rfl rfl rfl).1

/-! ### `initialize` -/

theorem config_vehicle_list_returned (cfg : streets_configuration)
    (svc svc2 : all_stop_scheduling_service) (v : Bool) (vl : vehicle_list)
    (hv : svc.vehicle_list_ptr = some vl)
    (h : config_vehicle_list cfg svc = outcome.returned v svc2) :
    v = true ∧ ∃ d s t,
      cfg.get_double_config "stop_distance" = Except.ok d ∧
      cfg.get_double_config "stop_speed" = Except.ok s ∧
      cfg.get_int_config "exp_delta" = Except.ok t ∧
      svc2 = { svc with
        vehicle_list_ptr := some
          { vl with
            processor := some (status_intent_processor.all_stop
              { stopping_distance := some d, stopping_speed := some s, timeout := some t }) } } := by
  unfold config_vehicle_list at h
  simp only [hv] at h
  cases h1 : cfg.get_double_config "stop_distance" <;> simp only [h1] at h <;> try cases h
  cases h2 : cfg.get_double_config "stop_speed" <;> simp only [h2] at h <;> try cases h
  cases h3 : cfg.get_int_config "exp_delta" <;> simp only [h3] at h <;> try cases h
  exact ⟨rfl, _, _, _, rfl, rfl, rfl, rfl⟩

theorem config_scheduler_returned (cfg : streets_configuration)
    (svc svc2 : all_stop_scheduling_service) (v : Bool) (scheduler : all_stop_vehicle_scheduler)
    (info : intersection_info)
    (hs : svc.scheduler_ptr = some scheduler) (hi : svc.intersection_info_ptr = some info)
    (h : config_scheduler cfg svc = outcome.returned v svc2) :
    v = true ∧ ∃ limit,
      cfg.get_int_config "flexibility_limit" = Except.ok limit ∧
      svc2 = { svc with
        scheduler_ptr := some { intersection_info := some info, flexibility_limit := some limit } } := by
  unfold config_scheduler at h
  split at h
  · rename_i scheduler' info' hs' hi'
    rw [hs] at hs'
    rw [hi] at hi'
    cases hs'
    cases hi'
    cases h1 : cfg.get_int_config "flexibility_limit" <;> simp only [h1] at h <;> try cases h
    exact ⟨rfl, _, rfl, rfl⟩
  · rename_i hne
    exact absurd hi (hne _ _ hs)

theorem configure_csv_logger_returned (cfg : streets_configuration) (env : startup_env)
    (svc svc2 : all_stop_scheduling_service) (u : Unit)
    (h : configure_csv_logger cfg env svc = outcome.returned u svc2) :
    ∃ path filename logger,
      cfg.get_string_config "schedule_log_path" = Except.ok path ∧
      cfg.get_string_config "schedule_log_filename" = Except.ok filename ∧
      svc2 = { svc with csv_logger := logger } := by
  unfold configure_csv_logger at h
  cases h1 : cfg.get_string_config "schedule_log_path" <;> simp only [h1] at h <;> try cases h
  cases h2 : cfg.get_string_config "schedule_log_filename" <;> simp only [h2] at h <;> try cases h
  split at h
  · cases h; exact ⟨_, _, _, rfl, rfl, rfl⟩
  · cases h; exact ⟨_, _, svc.csv_logger, rfl, rfl, rfl⟩

theorem try_block_true (cfg : streets_configuration)
    (env : startup_env) (a b : Int) (svc svc' : all_stop_scheduling_service)
    (h : initialize_try_block cfg env a b svc = outcome.returned true svc') :
    (env.consumer_init = true ∧ env.consumer_is_running = true ∧ env.producer_init = true) ∧
    (∃ info, env.update_intersection_info a b = some info ∧
        svc'.intersection_info_ptr = some info ∧
        svc'.scheduler_ptr = some
          { intersection_info := some info
            flexibility_limit := (cfg.get_int_config "flexibility_limit").toOption }) ∧
    (∃ processor, svc'.vehicle_list_ptr = some { processor := some processor }) ∧
    svc'.scheduling_worker = some {} ∧
    (∃ consumer, svc'.consumer_worker = some consumer ∧ consumer.subscribed = true) ∧
    transport_options_readable cfg = true ∧
    logging_readable cfg = true ∧
    ((cfg.get_double_config "stop_distance").isOk = true ∧
      (cfg.get_double_config "stop_speed").isOk = true ∧
      (cfg.get_int_config "exp_delta").isOk = true ∧
      (cfg.get_int_config "flexibility_limit").isOk = true) := by
  unfold initialize_try_block at h
  cases h1 : cfg.get_string_config "bootstrap_server" <;> simp only [h1] at h <;> try cases h
  cases h2 : cfg.get_string_config "group_id" <;> simp only [h2] at h <;> try cases h
  cases h3 : cfg.get_string_config "consumer_topic" <;> simp only [h3] at h <;> try cases h
  cases h4 : cfg.get_string_config "producer_topic" <;> simp only [h4] at h <;> try cases h
  cases h5 : env.consumer_init <;> simp [h5] at h
  cases h6 : env.consumer_is_running <;> simp [h6] at h
  cases h7 : cfg.get_boolean_config "enable_schedule_logging" with
  | error e => simp only [h7] at h; cases h
  | ok enable =>
    simp only [h7] at h
    split at h
    · cases h
    · cases h
    rename_i u svcL hlog
    cases h8 : env.producer_init <;> simp [h8] at h
    cases h9 : env.update_intersection_info a b <;> simp only [h9] at h <;> try cases h
    split at h
    · cases h
    · cases h
    rename_i v1 svcV hveh
    obtain ⟨-, d, s, t, hd, hs, ht, rfl⟩ := config_vehicle_list_returned _ _ _ _ _ rfl hveh
    split at h
    · cases h
    · cases h
    rename_i v2 svcS hsch
    obtain ⟨-, limit, hl, rfl⟩ := config_scheduler_returned _ _ _ _ _ _ rfl rfl hsch
    injection h with _ h
    subst h
    have hlogging : logging_readable cfg = true ∧ ∃ consumer, svcL.consumer_worker = some consumer ∧
        consumer.subscribed = true := by
      cases enable
      · simp only [Bool.false_eq_true, if_false] at hlog
        cases hlog
        exact ⟨by simp [logging_readable, h7], _, rfl, rfl⟩
      · simp only [if_true] at hlog
        obtain ⟨p, f, l, hp, hf, rfl⟩ := configure_csv_logger_returned _ _ _ _ _ hlog
        exact ⟨by simp [logging_readable, h7, hp, hf, Except.isOk, Except.toBool], _, rfl, rfl⟩
    refine ⟨⟨rfl, rfl, rfl⟩, ⟨_, rfl, rfl, by simp [hl, Except.toOption]⟩, ⟨_, rfl⟩, rfl,
      hlogging.2, ?_, hlogging.1, ?_⟩
    · simp [transport_options_readable, h1, h2, h3, h4, Except.isOk, Except.toBool]
    · simp [hd, hs, ht, hl, Except.isOk, Except.toBool]

theorem initialize_eq_of_try_block_true (cfg : streets_configuration) (env : startup_env)
    (a b : Int) (svc svc' : all_stop_scheduling_service) :
    all_stop_scheduling_service.initialize cfg env a b svc = outcome.returned true svc' ↔
      initialize_try_block cfg env a b svc = outcome.returned true svc' := by
  unfold all_stop_scheduling_service.initialize
  cases h : initialize_try_block cfg env a b svc <;> simp

/-- C7. If `initialize` returns true, then the consumer initialised, it
reported `is_running()` after `subscribe()`, the producer initialised,
`update_intersection_info` succeeded, and no configuration exception was
raised (the `try` block itself returned true, every option it reads being
readable); and in the resulting service the vehicle list, the scheduler and the
scheduling worker are non-null, the intersection info is the loaded one and the
scheduler has been given it. -/
theorem initialize_true_only_after_full_startup (cfg : streets_configuration)
    (env : startup_env) (sleep_millisecs int_client_request_attempts : Int)
    (svc svc' : all_stop_scheduling_service)
    (h : all_stop_scheduling_service.initialize cfg env sleep_millisecs
      int_client_request_attempts svc = outcome.returned true svc') :
    env.consumer_init = true ∧
      (env.consumer_is_running = true ∧
        ∃ consumer, svc'.consumer_worker = some consumer ∧ consumer.subscribed = true) ∧
      env.producer_init = true ∧
      (∃ info, env.update_intersection_info sleep_millisecs int_client_request_attempts =
          some info ∧
        svc'.intersection_info_ptr = some info ∧
        ∃ scheduler, svc'.scheduler_ptr = some scheduler ∧
          scheduler.intersection_info = some info) ∧
      (initialize_try_block cfg env sleep_millisecs int_client_request_attempts svc =
          outcome.returned true svc' ∧
        transport_options_readable cfg = true ∧ logging_readable cfg = true ∧
        (cfg.get_double_config "stop_distance").isOk = true ∧
        (cfg.get_double_config "stop_speed").isOk = true ∧
        (cfg.get_int_config "exp_delta").isOk = true ∧
        (cfg.get_int_config "flexibility_limit").isOk = true) ∧
      svc'.vehicle_list_ptr.isSome = true ∧ svc'.scheduler_ptr.isSome = true ∧
      svc'.scheduling_worker.isSome = true := by
  have ht := (initialize_eq_of_try_block_true cfg env _ _ svc svc').1 h
  obtain ⟨⟨h1, h2, h3⟩, ⟨info, hi1, hi2, hi3⟩, ⟨p, hv⟩, hw, hc, hcfg, hlog, hd, hs, he, hf⟩ :=
    try_block_true cfg env _ _ svc svc' ht
  refine ⟨h1, ⟨h2, hc⟩, h3, ⟨info, hi1, hi2, _, hi3, rfl⟩, ⟨ht, hcfg, hlog, hd, hs, he, hf⟩,
    ?_, ?_, ?_⟩
  · simp [hv]
  · simp [hi3]
  · simp [hw]

/-- C7, on an input: with the example manifest and a world in which every
outside call succeeds, `initialize` returns true, so the theorem applies; the
scheduler holds the fetched intersection info. -/
theorem initialize_true_only_after_full_startup_witness :
    all_stop_scheduling_service.initialize example_manifest.configuration example_startup_env
        1000 10 {} = outcome.returned true example_started_service ∧
      example_startup_env.consumer_init = true ∧
      example_started_service.vehicle_list_ptr.isSome = true ∧
      example_started_service.scheduler_ptr.isSome = true ∧
      example_started_service.scheduling_worker.isSome = true :=
  ⟨by decide,
    (initialize_true_only_after_full_startup example_manifest.configuration example_startup_env
      1000 10 {} example_started_service (by decide)).1,
    (initialize_true_only_after_full_startup example_manifest.configuration example_startup_env
      1000 10 {} example_started_service (by decide)).2.2.2.2.2⟩

theorem to_int64_of_range (n : Int) (hlo : -9223372036854775808 ≤ n)
    (hhi : n < 9223372036854775808) : to_int64 n = n := by
  unfold to_int64
  rw [Int.emod_eq_of_lt (by omega) (by omega)]
  omega

theorem to_int64_lt (n : Int) : to_int64 n < 9223372036854775808 := by
  unfold to_int64
  have := Int.emod_lt_of_pos (n + 9223372036854775808)
    (show (0 : Int) < 18446744073709551616 by norm_num)
  omega

theorem next_schedule_time_epoch_lt (k now delta : Nat) :
    next_schedule_time_epoch k now delta < 9223372036854775808 :=
  to_int64_lt _

theorem next_schedule_time_epoch_of_range (k now delta : Nat)
    (h : now + delta * k < 2 ^ 63) :
    next_schedule_time_epoch k now delta = ((now + delta * k : Nat) : Int) := by
  unfold next_schedule_time_epoch
  have h' : now + delta * k < 9223372036854775808 := by
    have e : (2 : Nat) ^ 63 = 9223372036854775808 := by norm_num
    omega
  have hprod_nonneg : (0 : Int) ≤ (delta : Int) * (k : Int) := by positivity
  have hprod_lt : (delta : Int) * (k : Int) < 9223372036854775808 := by
    have : ((delta * k : Nat) : Int) < 9223372036854775808 := by
      exact_mod_cast (by omega : delta * k < 9223372036854775808)
    simpa using this
  have hsum_lt : (now : Int) + (delta : Int) * (k : Int) < 9223372036854775808 := by
    have : ((now + delta * k : Nat) : Int) < 9223372036854775808 := by exact_mod_cast h'
    simpa using this
  have hprod : to_int64 ((delta : Int) * (k : Int)) = (delta : Int) * (k : Int) :=
    to_int64_of_range _ (by omega) hprod_lt
  have hinner : to_int64 (to_int64 (delta : Int) * (k : Int)) = (delta : Int) * (k : Int) := by
    rcases Nat.eq_zero_or_pos k with hk | hk
    · subst hk
      simp only [Nat.cast_zero, mul_zero]
      exact to_int64_of_range 0 (by norm_num) (by norm_num)
    · have hd : delta < 9223372036854775808 := by
        have : delta ≤ delta * k := Nat.le_mul_of_pos_right delta hk
        omega
      have hd' : (delta : Int) < 9223372036854775808 := by exact_mod_cast hd
      rw [to_int64_of_range (delta : Int) (by omega) hd', hprod]
  rw [hinner, to_int64_of_range _ (by omega) hsum_lt]
  push_cast
  ring

theorem produced_append (xs ys : List scheduling_call) :
    produced (xs ++ ys) = produced xs ++ produced ys := by
  induction xs with
  | nil => rfl
  | cons x xs ih => cases x <;> simp [produced, ih]

theorem iteration_denied {σ : Type} (env : scheduling_env σ)
    (sched : Option all_stop_vehicle_scheduler) (delta : Nat) (st : schedule_veh_state σ)
    (h : (env.start_next_schedule st.last_schedule_timestamp delta st.world).1 = false) :
    schedule_veh_iteration env sched delta st =
      { st with
        world := (env.start_next_schedule st.last_schedule_timestamp delta st.world).2
        calls := st.calls ++
          [scheduling_call.start_next_schedule st.last_schedule_timestamp delta false] } := by
  simp [schedule_veh_iteration, h]

theorem iteration_granted {σ : Type} (env : scheduling_env σ)
    (sched : Option all_stop_vehicle_scheduler) (delta : Nat) (st : schedule_veh_state σ)
    (cycle_start cycle_end : Nat) (w_started w_snapshot w_scheduled w_finished : σ)
    (snapshot : vehicle_map) (int_schedule : intersection_schedule)
    (hgrant : (env.start_next_schedule st.last_schedule_timestamp delta st.world).1 = true)
    (hstart : env.now (env.start_next_schedule st.last_schedule_timestamp delta st.world).2 =
      (cycle_start, w_started))
    (hsnap : env.get_vehicles w_started = (snapshot, w_snapshot))
    (hsched : env.schedule_vehicles snapshot sched w_snapshot = (int_schedule, w_scheduled))
    (hend : env.now (env.send (env.toJson int_schedule) w_scheduled) = (cycle_end, w_finished)) :
    schedule_veh_iteration env sched delta st =
      { last_schedule_timestamp := int_schedule.timestamp
        sch_count := st.sch_count + 1
        veh_map := snapshot
        world :=
          if (cycle_end : Int) <
              next_schedule_time_epoch env.ticks_per_millisecond cycle_start delta then
            env.sleep_until
              (next_schedule_time_epoch env.ticks_per_millisecond cycle_start delta) w_finished
          else w_finished
        calls := st.calls ++
          [scheduling_call.start_next_schedule st.last_schedule_timestamp delta true,
            scheduling_call.now cycle_start,
            scheduling_call.get_vehicles snapshot,
            scheduling_call.schedule_vehicles snapshot int_schedule,
            scheduling_call.send (env.toJson int_schedule),
            scheduling_call.now cycle_end] ++
          (if (cycle_end : Int) <
              next_schedule_time_epoch env.ticks_per_millisecond cycle_start delta then
            [scheduling_call.sleep_until
              (next_schedule_time_epoch env.ticks_per_millisecond cycle_start delta)]
          else []) } := by
  simp only [schedule_veh_iteration, hgrant, if_true, hstart, hsnap, hsched, hend]

theorem iteration_calls_cases {σ : Type} (env : scheduling_env σ)
    (sched : Option all_stop_vehicle_scheduler) (delta : Nat) (st : schedule_veh_state σ) :
    ((env.start_next_schedule st.last_schedule_timestamp delta st.world).1 = false ∧
        (schedule_veh_iteration env sched delta st).last_schedule_timestamp =
          st.last_schedule_timestamp ∧
        (schedule_veh_iteration env sched delta st).sch_count = st.sch_count ∧
        (schedule_veh_iteration env sched delta st).calls = st.calls ++
          [scheduling_call.start_next_schedule st.last_schedule_timestamp delta false]) ∨
      ∃ t0 vm s t1 tail,
        (env.start_next_schedule st.last_schedule_timestamp delta st.world).1 = true ∧
        (schedule_veh_iteration env sched delta st).last_schedule_timestamp = s.timestamp ∧
        (schedule_veh_iteration env sched delta st).sch_count = st.sch_count + 1 ∧
        (schedule_veh_iteration env sched delta st).calls = st.calls ++
          [scheduling_call.start_next_schedule st.last_schedule_timestamp delta true,
            scheduling_call.now t0, scheduling_call.get_vehicles vm,
            scheduling_call.schedule_vehicles vm s, scheduling_call.send (env.toJson s),
            scheduling_call.now t1] ++ tail ∧
        (tail = [] ∨ ∃ t, tail = [scheduling_call.sleep_until t]) := by
  by_cases h : (env.start_next_schedule st.last_schedule_timestamp delta st.world).1 = true
  · right
    have hit := iteration_granted env sched delta st
      (env.now (env.start_next_schedule st.last_schedule_timestamp delta st.world).2).1
      (env.now (env.send (env.toJson (env.schedule_vehicles (env.get_vehicles (env.now
        (env.start_next_schedule st.last_schedule_timestamp delta st.world).2).2).1 sched
        (env.get_vehicles (env.now (env.start_next_schedule st.last_schedule_timestamp delta
          st.world).2).2).2).1) (env.schedule_vehicles (env.get_vehicles (env.now
        (env.start_next_schedule st.last_schedule_timestamp delta st.world).2).2).1 sched
        (env.get_vehicles (env.now (env.start_next_schedule st.last_schedule_timestamp delta
          st.world).2).2).2).2)).1
      _ _ _ _ _ _ h rfl rfl rfl rfl
    rw [hit]
    refine ⟨_, _, _, _, _, h, rfl, rfl, rfl, ?_⟩
    split
    · exact Or.inr ⟨_, rfl⟩
    · exact Or.inl rfl
  · left
    simp only [Bool.not_eq_true] at h
    rw [iteration_denied env sched delta st h]
    exact ⟨h, rfl, rfl, rfl⟩

theorem iteration_calls_head {σ : Type} (env : scheduling_env σ)
    (sched : Option all_stop_vehicle_scheduler) (delta : Nat) (st : schedule_veh_state σ) :
    ∃ rest,
      (schedule_veh_iteration env sched delta st).calls =
        st.calls ++
          scheduling_call.start_next_schedule st.last_schedule_timestamp delta
            (env.start_next_schedule st.last_schedule_timestamp delta st.world).1 :: rest := by
  rcases iteration_calls_cases env sched delta st with
    ⟨hg, _, _, hcalls⟩ | ⟨t0, vm, s, t1, tail, hg, _, _, hcalls, _⟩
  · rw [hcalls, hg]
    exact ⟨[], rfl⟩
  · rw [hcalls, hg]
    exact ⟨[scheduling_call.now t0, scheduling_call.get_vehicles vm,
      scheduling_call.schedule_vehicles vm s, scheduling_call.send (env.toJson s),
      scheduling_call.now t1] ++ tail, by simp⟩

theorem last_produced_timestamp_append_of_none (xs ys : List scheduling_call)
    (hys : produced ys = []) :
    last_produced_timestamp (xs ++ ys) = last_produced_timestamp xs := by
  simp [last_produced_timestamp, produced_append, hys]

theorem marker_invariant_step (delta : Nat) (last last' : Nat)
    (calls suffix : List scheduling_call) (g : Bool)
    (hinv : marker_invariant delta last calls)
    (hlast : last' = last_produced_timestamp
      (calls ++ scheduling_call.start_next_schedule last delta g :: suffix))
    (hsuffix : ∀ l d g', scheduling_call.start_next_schedule l d g' ∉ suffix) :
    marker_invariant delta last'
      (calls ++ scheduling_call.start_next_schedule last delta g :: suffix) := by
  refine ⟨hlast, ?_⟩
  intro before after l d g' hsplit
  rcases List.append_eq_append_iff.1 hsplit with ⟨a', h1, h2⟩ | ⟨c', h1, h2⟩
  · cases a' with
    | nil =>
      simp only [List.nil_append, List.cons.injEq, scheduling_call.start_next_schedule.injEq]
        at h2
      simp only [List.append_nil] at h1
      obtain ⟨⟨rfl, rfl, -⟩, -⟩ := h2
      rw [h1]
      exact ⟨hinv.1, rfl⟩
    | cons x a'' =>
      simp only [List.cons_append, List.cons.injEq] at h2
      obtain ⟨rfl, h2⟩ := h2
      have hmem : scheduling_call.start_next_schedule l d g' ∈ suffix := by
        rw [h2]; simp
      exact absurd hmem (hsuffix l d g')
  · cases c' with
    | nil =>
      simp only [List.nil_append, List.cons.injEq, scheduling_call.start_next_schedule.injEq]
        at h2
      simp only [List.append_nil] at h1
      obtain ⟨⟨rfl, rfl, -⟩, -⟩ := h2
      rw [← h1]
      exact ⟨hinv.1, rfl⟩
    | cons x c'' =>
      simp only [List.cons_append, List.cons.injEq] at h2
      obtain ⟨rfl, h2⟩ := h2
      exact hinv.2 before c'' l d g' h1

theorem loop_marker_invariant {σ : Type} (env : scheduling_env σ)
    (sched : Option all_stop_vehicle_scheduler) (delta : Nat) (n : Nat) (w : σ) :
    marker_invariant delta
      (schedule_veh_loop env sched delta n (schedule_veh_entry w)).last_schedule_timestamp
      (schedule_veh_loop env sched delta n (schedule_veh_entry w)).calls := by
  induction n with
  | zero =>
    refine ⟨rfl, ?_⟩
    intro before after l d g h
    simp [schedule_veh_loop, schedule_veh_entry] at h
  | succ k ih =>
    simp only [schedule_veh_loop]
    rcases iteration_calls_cases env sched delta
      (schedule_veh_loop env sched delta k (schedule_veh_entry w)) with
      ⟨_, hl, _, hcalls⟩ | ⟨t0, vm, s, t1, tail, _, hl, _, hcalls, htail⟩
    · rw [hcalls, hl]
      refine marker_invariant_step delta _ _ _ [] false ih ?_ (by simp)
      rw [last_produced_timestamp_append_of_none _ _ (by simp [produced])]
      exact ih.1
    · rw [hcalls, hl]
      have hshape : (schedule_veh_loop env sched delta k (schedule_veh_entry w)).calls ++
          [scheduling_call.start_next_schedule
              (schedule_veh_loop env sched delta k
                (schedule_veh_entry w)).last_schedule_timestamp delta true,
            scheduling_call.now t0, scheduling_call.get_vehicles vm,
            scheduling_call.schedule_vehicles vm s, scheduling_call.send (env.toJson s),
            scheduling_call.now t1] ++ tail =
          (schedule_veh_loop env sched delta k (schedule_veh_entry w)).calls ++
            scheduling_call.start_next_schedule
              (schedule_veh_loop env sched delta k
                (schedule_veh_entry w)).last_schedule_timestamp delta true ::
            ([scheduling_call.now t0, scheduling_call.get_vehicles vm,
              scheduling_call.schedule_vehicles vm s, scheduling_call.send (env.toJson s),
              scheduling_call.now t1] ++ tail) := by simp
      rw [hshape]
      refine marker_invariant_step delta _ _ _ _ true ih ?_ ?_
      · rcases htail with rfl | ⟨t, rfl⟩ <;>
          simp [last_produced_timestamp, produced_append, produced]
      · intro l d g'
        rcases htail with rfl | ⟨t, rfl⟩ <;> simp

/-- C4. When `scheduling_delta` is configured and the scheduling worker exists,
`schedule_veh` reaches its loop, and after any number of iterations: every poll
of `start_next_schedule` made so far had as its first argument the timestamp of
the schedule produced last before it (0 when none had been produced) and as
its second argument the one value `scheduling_delta`; the marker
`last_schedule_timestamp` is the timestamp of the schedule produced last; and
the next iteration opens with the poll made with that marker and
`scheduling_delta`. An iteration in which permission is denied leaves the
marker unchanged; one in which it is granted sets the marker to the timestamp
of the schedule that `schedule_vehicles` returned in that iteration, which is
the schedule logged last, before the next poll is made. -/
theorem schedule_veh_polls_with_last_timestamp {σ : Type} (env : scheduling_env σ)
    (cfg : streets_configuration) (worker : all_stop_scheduling_worker)
    (sched : Option all_stop_vehicle_scheduler) (seconds : cpp_double)
    (hcfg : cfg.get_double_config "scheduling_delta" = Except.ok seconds) :
    (∀ (n : Nat) (w : σ), ∃ st,
        schedule_veh env cfg (some worker) sched n w = schedule_veh_progress.looping st ∧
        st.last_schedule_timestamp = last_produced_timestamp st.calls ∧
        (∀ before after l d g,
          st.calls = before ++ scheduling_call.start_next_schedule l d g :: after →
          l = last_produced_timestamp before ∧ d = env.u_int64_millis seconds) ∧
        schedule_veh env cfg (some worker) sched (n + 1) w =
          schedule_veh_progress.looping
            (schedule_veh_iteration env sched (env.u_int64_millis seconds) st) ∧
        ∃ rest,
          (schedule_veh_iteration env sched (env.u_int64_millis seconds) st).calls =
            st.calls ++
              scheduling_call.start_next_schedule (last_produced_timestamp st.calls)
                (env.u_int64_millis seconds)
                (env.start_next_schedule st.last_schedule_timestamp
                  (env.u_int64_millis seconds) st.world).1 :: rest) ∧
      (∀ (d : Nat) (st : schedule_veh_state σ),
        (env.start_next_schedule st.last_schedule_timestamp d st.world).1 = false →
        (schedule_veh_iteration env sched d st).last_schedule_timestamp =
            st.last_schedule_timestamp ∧
          (schedule_veh_iteration env sched d st).calls =
            st.calls ++
              [scheduling_call.start_next_schedule st.last_schedule_timestamp d false]) ∧
      (∀ (d : Nat) (st : schedule_veh_state σ) (cycle_start : Nat)
        (w_started w_snapshot w_scheduled : σ) (snapshot : vehicle_map)
        (int_schedule : intersection_schedule),
        (env.start_next_schedule st.last_schedule_timestamp d st.world).1 = true →
        env.now (env.start_next_schedule st.last_schedule_timestamp d st.world).2 =
          (cycle_start, w_started) →
        env.get_vehicles w_started = (snapshot, w_snapshot) →
        env.schedule_vehicles snapshot sched w_snapshot = (int_schedule, w_scheduled) →
        (schedule_veh_iteration env sched d st).last_schedule_timestamp =
            int_schedule.timestamp ∧
          produced (schedule_veh_iteration env sched d st).calls =
            produced st.calls ++ [int_schedule] ∧
          last_produced_timestamp (schedule_veh_iteration env sched d st).calls =
            int_schedule.timestamp) := by
  refine ⟨?_, ?_, ?_⟩
  · intro n w
    have hinv := loop_marker_invariant env sched (env.u_int64_millis seconds) n w
    refine ⟨schedule_veh_loop env sched (env.u_int64_millis seconds) n (schedule_veh_entry w),
      by simp [schedule_veh, hcfg], hinv.1, hinv.2,
      by simp [schedule_veh, hcfg, schedule_veh_loop], ?_⟩
    rw [← hinv.1]
    exact iteration_calls_head env sched (env.u_int64_millis seconds) _
  · intro d st hdeny
    rw [iteration_denied env sched d st hdeny]
    exact ⟨rfl, rfl⟩
  · intro d st cycle_start w_started w_snapshot w_scheduled snapshot int_schedule hgrant
      hstart hsnap hsched
    rw [iteration_granted env sched d st cycle_start
      (env.now (env.send (env.toJson int_schedule) w_scheduled)).1 w_started w_snapshot
      w_scheduled (env.now (env.send (env.toJson int_schedule) w_scheduled)).2 snapshot
      int_schedule hgrant hstart hsnap hsched rfl]
    by_cases hc : ((env.now (env.send (env.toJson int_schedule) w_scheduled)).1 : Int) <
        next_schedule_time_epoch env.ticks_per_millisecond cycle_start d
    · simp [hc, last_produced_timestamp, produced_append, produced]
    · simp [hc, last_produced_timestamp, produced_append, produced]

/-- C4, on a run: the example manifest configures `scheduling_delta` as 1.0 s;
in the timed world the loop is reached and the marker after two iterations is
the timestamp of the schedule produced last. -/
theorem schedule_veh_polls_with_last_timestamp_witness :
    ∃ st, schedule_veh timed_env example_manifest.configuration (some {}) none 2
        slow_snapshot_world = schedule_veh_progress.looping st ∧
      st.last_schedule_timestamp = last_produced_timestamp st.calls :=
  match (schedule_veh_polls_with_last_timestamp timed_env example_manifest.configuration {}
    none { bits := 4607182418800017408 } rfl).1 2 slow_snapshot_world with
  | ⟨st, h1, h2, _⟩ => ⟨st, h1, h2⟩

/-- C3, as stated, fails. Interval 500 ms; the first cycle starts at 10 001 ms,
takes 700 ms (300 ms for the snapshot, then the schedule is stamped, then
400 ms of scheduling) and is not followed by a sleep; the very next poll, made
with the updated marker 10 301 at 10 701 ms, is denied, because only 400 ms
have passed since the schedule's timestamp. The same happens after a cycle of
exactly 500 ms whose snapshot took 1 ms: the next poll comes 499 ms after the
timestamp. -/
theorem overrun_cycle_next_poll_denied :
    ((schedule_veh_loop timed_env none 500 2 (schedule_veh_entry slow_snapshot_world)).calls =
        [scheduling_call.start_next_schedule 0 500 true,
          scheduling_call.now 10001000000,
          scheduling_call.get_vehicles [],
          scheduling_call.schedule_vehicles [] { timestamp := 10301, vehicle_schedules := [] },
          scheduling_call.send "10301",
          scheduling_call.now 10701000000,
          scheduling_call.start_next_schedule 10301 500 false] ∧
      10001000000 + 500 * timed_env.ticks_per_millisecond ≤ 10701000000) ∧
    ((schedule_veh_loop timed_env none 500 2 (schedule_veh_entry exact_world)).calls =
        [scheduling_call.start_next_schedule 0 500 true,
          scheduling_call.now 10001000000,
          scheduling_call.get_vehicles [],
          scheduling_call.schedule_vehicles [] { timestamp := 10002, vehicle_schedules := [] },
          scheduling_call.send "10002",
          scheduling_call.now 10501000000,
          scheduling_call.start_next_schedule 10002 500 false] ∧
      10001000000 + 500 * timed_env.ticks_per_millisecond ≤ 10501000000) := by
  refine ⟨⟨?_, ?_⟩, ⟨?_, ?_⟩⟩ <;> decide

/-- C3, amended. Let the cadence decision be the one of the spec, taken on a
clock `clock_ms` of the world. In a cycle whose second clock reading is not
earlier than the target `cycle_start + scheduling_delta` (the cycle took at
least the interval), no sleep is performed; the marker is updated to the
schedule's timestamp; and the very next poll, made with that marker, grants
permission exactly when the clock at that poll is at least the interval past
the schedule's timestamp. -/
theorem overrun_cycle_no_sleep_next_poll_by_timestamp {σ : Type} (env : scheduling_env σ)
    (clock_ms : σ → Nat) (sched : Option all_stop_vehicle_scheduler) (scheduling_delta : Nat)
    (st : schedule_veh_state σ)
    (cycle_start cycle_end : Nat) (w_started w_snapshot w_scheduled w_finished : σ)
    (snapshot : vehicle_map) (int_schedule : intersection_schedule)
    (hmodel : ∀ last delta w,
      (env.start_next_schedule last delta w).1 = start_next_schedule (clock_ms w) last delta)
    (hgrant :
      (env.start_next_schedule st.last_schedule_timestamp scheduling_delta st.world).1 = true)
    (hstart :
      env.now (env.start_next_schedule st.last_schedule_timestamp scheduling_delta st.world).2 =
        (cycle_start, w_started))
    (hsnap : env.get_vehicles w_started = (snapshot, w_snapshot))
    (hsched : env.schedule_vehicles snapshot sched w_snapshot = (int_schedule, w_scheduled))
    (hend : env.now (env.send (env.toJson int_schedule) w_scheduled) = (cycle_end, w_finished))
    (hover : cycle_start + scheduling_delta * env.ticks_per_millisecond ≤ cycle_end) :
    (schedule_veh_iteration env sched scheduling_delta st).world = w_finished ∧
      (∀ t, scheduling_call.sleep_until t ∉
        (schedule_veh_iteration env sched scheduling_delta st).calls.drop st.calls.length) ∧
      (schedule_veh_iteration env sched scheduling_delta st).last_schedule_timestamp =
        int_schedule.timestamp ∧
      ((env.start_next_schedule
          (schedule_veh_iteration env sched scheduling_delta st).last_schedule_timestamp
          scheduling_delta (schedule_veh_iteration env sched scheduling_delta st).world).1 =
          true ↔
        int_schedule.timestamp + scheduling_delta ≤ clock_ms w_finished) := by
  rw [iteration_granted env sched scheduling_delta st cycle_start cycle_end w_started w_snapshot
    w_scheduled w_finished snapshot int_schedule hgrant hstart hsnap hsched hend]
  have hnot : ¬ (cycle_end : Int) <
      next_schedule_time_epoch env.ticks_per_millisecond cycle_start scheduling_delta := by
    have e : (2 : Nat) ^ 63 = 9223372036854775808 := by norm_num
    by_cases hfit : cycle_start + scheduling_delta * env.ticks_per_millisecond < 2 ^ 63
    · rw [next_schedule_time_epoch_of_range _ _ _ hfit]
      exact_mod_cast (by omega :
        ¬ cycle_end < cycle_start + scheduling_delta * env.ticks_per_millisecond)
    · have hlt := next_schedule_time_epoch_lt env.ticks_per_millisecond cycle_start
        scheduling_delta
      have hbig : (9223372036854775808 : Int) ≤ (cycle_end : Int) := by
        exact_mod_cast (by omega : 9223372036854775808 ≤ cycle_end)
      omega
  simp only [hnot, if_false, List.append_nil]
  refine ⟨trivial, ?_, trivial, ?_⟩
  · intro t
    simp
  · rw [hmodel]
    simp only [start_next_schedule, decide_eq_true_eq]
    omega

/-- C3 amended, on a run: interval 500 ms, a cycle of 700 ms whose schedule is
stamped 100 ms after the cycle's start; no sleep, and the next poll, 600 ms
after the timestamp, grants permission. -/
theorem overrun_cycle_no_sleep_next_poll_by_timestamp_witness :
    (schedule_veh_iteration timed_env none 500 (schedule_veh_entry slow_world)).world =
        { slow_world with clock := 10701000000, sent := ["10101"] } ∧
      (timed_env.start_next_schedule
        (schedule_veh_iteration timed_env none 500
          (schedule_veh_entry slow_world)).last_schedule_timestamp 500
        (schedule_veh_iteration timed_env none 500 (schedule_veh_entry slow_world)).world).1 =
        true :=
  have h := overrun_cycle_no_sleep_next_poll_by_timestamp timed_env
    (fun w => w.clock / 1000000) none 500 (schedule_veh_entry slow_world)
    10001000000 10701000000
    { slow_world with clock := 10001000000 }
    { slow_world with clock := 10101000000 }
    { slow_world with clock := 10701000000 }
    { slow_world with clock := 10701000000, sent := ["10101"] }
    [] { timestamp := 10101, vehicle_schedules := [] }
    (fun _ _ _ => rfl) (by decide) (by decide) (by decide) (by decide) (by decide) (by decide)
  ⟨h.1, h.2.2.2.2 (by decide)⟩

end scheduling_service
